import Mathlib

/-!
Verification of the SPC / process-capability core of the Halozyme dashboard
repository.  The statistical routines live in
`pages/Continued_Process_Verification_CPV.py` (`calculate_ppk`,
`create_control_chart`, the Ppk classification) and
`pages/Data_Analytics_Platform_Info.py` (the I-chart limits `i_ucl`, `i_lcl`).
The Python code operates on pandas series of float64 values; we embed floats
as an inductive type `PFloat` over the exact reals, with explicit `nan`,
positive and negative infinity constructors, reproducing the NaN-propagation
and infinity semantics of numpy that the code relies on (pandas `mean()` of
an empty series is NaN, pandas `std()` with its default `ddof = 1` of a
series of fewer than two values is NaN, `np.inf` is returned by
`calculate_ppk` on zero standard deviation).
-/

namespace Halozyme

open Classical in
/-- Model of a numpy float64 scalar: an exact real, NaN, or an infinity. -/
inductive PFloat where
  | nan : PFloat
  | inf : PFloat
  | ninf : PFloat
  | val : ℝ → PFloat

/-- The `<` comparison of numpy floats: any comparison involving NaN is
false; `-inf` is below every finite value and `inf` is above. -/
def PFloat.lt : PFloat → PFloat → Prop
  | PFloat.val x, PFloat.val y => x < y
  | PFloat.val _, PFloat.inf => True
  | PFloat.ninf, PFloat.val _ => True
  | PFloat.ninf, PFloat.inf => True
  | _, _ => False

/-- The `==` comparison of numpy floats: NaN is equal to nothing
(including itself); infinities are equal to themselves. -/
def PFloat.numEq : PFloat → PFloat → Prop
  | PFloat.val x, PFloat.val y => x = y
  | PFloat.inf, PFloat.inf => True
  | PFloat.ninf, PFloat.ninf => True
  | _, _ => False

/-- Addition with numpy semantics: NaN propagates, opposite infinities
give NaN. -/
def PFloat.add : PFloat → PFloat → PFloat
  | PFloat.nan, _ => PFloat.nan
  | _, PFloat.nan => PFloat.nan
  | PFloat.val x, PFloat.val y => PFloat.val (x + y)
  | PFloat.inf, PFloat.ninf => PFloat.nan
  | PFloat.ninf, PFloat.inf => PFloat.nan
  | PFloat.inf, _ => PFloat.inf
  | _, PFloat.inf => PFloat.inf
  | PFloat.ninf, _ => PFloat.ninf
  | _, PFloat.ninf => PFloat.ninf

/-- Subtraction with numpy semantics: NaN propagates, `inf - inf` is NaN. -/
def PFloat.sub : PFloat → PFloat → PFloat
  | PFloat.nan, _ => PFloat.nan
  | _, PFloat.nan => PFloat.nan
  | PFloat.val x, PFloat.val y => PFloat.val (x - y)
  | PFloat.inf, PFloat.inf => PFloat.nan
  | PFloat.ninf, PFloat.ninf => PFloat.nan
  | PFloat.inf, _ => PFloat.inf
  | PFloat.ninf, _ => PFloat.ninf
  | _, PFloat.inf => PFloat.ninf
  | _, PFloat.ninf => PFloat.inf

/-- Multiplication with numpy semantics: NaN propagates, `0 * inf` is NaN. -/
noncomputable def PFloat.mul : PFloat → PFloat → PFloat
  | PFloat.nan, _ => PFloat.nan
  | _, PFloat.nan => PFloat.nan
  | PFloat.val x, PFloat.val y => PFloat.val (x * y)
  | PFloat.inf, PFloat.val y =>
      if y = 0 then PFloat.nan else if 0 < y then PFloat.inf else PFloat.ninf
  | PFloat.val x, PFloat.inf =>
      if x = 0 then PFloat.nan else if 0 < x then PFloat.inf else PFloat.ninf
  | PFloat.ninf, PFloat.val y =>
      if y = 0 then PFloat.nan else if 0 < y then PFloat.ninf else PFloat.inf
  | PFloat.val x, PFloat.ninf =>
      if x = 0 then PFloat.nan else if 0 < x then PFloat.ninf else PFloat.inf
  | PFloat.inf, PFloat.inf => PFloat.inf
  | PFloat.inf, PFloat.ninf => PFloat.ninf
  | PFloat.ninf, PFloat.inf => PFloat.ninf
  | PFloat.ninf, PFloat.ninf => PFloat.inf

open Classical in
/-- Division with numpy semantics: NaN propagates, a nonzero finite value
divided by zero gives a signed infinity, `0 / 0` gives NaN. -/
noncomputable def PFloat.div : PFloat → PFloat → PFloat
  | PFloat.nan, _ => PFloat.nan
  | _, PFloat.nan => PFloat.nan
  | PFloat.val x, PFloat.val y =>
      if y = 0 then
        (if x = 0 then PFloat.nan else if 0 < x then PFloat.inf else PFloat.ninf)
      else PFloat.val (x / y)
  | PFloat.inf, PFloat.val y => if y < 0 then PFloat.ninf else PFloat.inf
  | PFloat.ninf, PFloat.val y => if y < 0 then PFloat.inf else PFloat.ninf
  | PFloat.val _, PFloat.inf => PFloat.val 0
  | PFloat.val _, PFloat.ninf => PFloat.val 0
  | PFloat.inf, _ => PFloat.nan
  | PFloat.ninf, _ => PFloat.nan

open Classical in
/-- The Python builtin `min(a, b)`: it returns `b` when `b < a` and `a`
otherwise, so `min(NaN, x) = NaN` and `min(x, NaN) = x`. -/
noncomputable def PFloat.pymin (a b : PFloat) : PFloat :=
  if PFloat.lt b a then b else a

open Classical in
/-- The sample variance used by pandas `Series.std()` with its default
`ddof = 1`: the sum of squared deviations from the mean divided by `N - 1`. -/
noncomputable def sampleVariance (xs : List ℝ) : ℝ :=
  ((xs.map fun x => (x - xs.sum / xs.length) ^ 2).sum) / ((xs.length : ℝ) - 1)

/-- pandas `Series.mean()`: the arithmetic mean, NaN on an empty series. -/
noncomputable def pandasMean (xs : List ℝ) : PFloat :=
  if xs.length = 0 then PFloat.nan
  else PFloat.val (xs.sum / xs.length)

open Classical in
/-- pandas `Series.std()` with its default `ddof = 1`: the square root of
the sample variance, NaN on a series of fewer than two values. -/
noncomputable def pandasStd (xs : List ℝ) : PFloat :=
  if xs.length < 2 then PFloat.nan
  else PFloat.val (Real.sqrt (sampleVariance xs))

open Classical in
/-- `calculate_ppk` from `pages/Continued_Process_Verification_CPV.py`:
mean and (sample) standard deviation of the series, early return of
`np.inf` when the standard deviation compares equal to zero, otherwise
`min((usl - mean) / (3 std), (mean - lsl) / (3 std))`. -/
noncomputable def calculate_ppk (data : List ℝ) (usl lsl : ℝ) : PFloat :=
  let mean := pandasMean data
  let std_dev := pandasStd data
  if PFloat.numEq std_dev (PFloat.val 0) then PFloat.inf
  else
    let ppu := ((PFloat.val usl).sub mean).div ((PFloat.val 3).mul std_dev)
    let ppl := (mean.sub (PFloat.val lsl)).div ((PFloat.val 3).mul std_dev)
    PFloat.pymin ppu ppl

open Classical in
/-- The out-of-control selection of `create_control_chart`:
`df[(df[parameter] > ucl) | (df[parameter] < lcl)]`, a boolean-mask filter
keeping the rows whose value is strictly above `ucl` or strictly below
`lcl`, in their original order. -/
noncomputable def findOutOfControlPoints {α : Type} (df : List (α × ℝ))
    (ucl lcl : PFloat) : List (α × ℝ) :=
  df.filter fun p =>
    decide (PFloat.lt ucl (PFloat.val p.2) ∨ PFloat.lt (PFloat.val p.2) lcl)

open Classical in
/-- The data computed by `create_control_chart`: the centre line, the
control limits, and the out-of-control rows that the chart marks. -/
structure ControlChart (α : Type) where
  mean : PFloat
  ucl : PFloat
  lcl : PFloat
  outOfControl : List (α × ℝ)

/-- `create_control_chart` from `pages/Continued_Process_Verification_CPV.py`
restricted to its computed data (the plotly styling is presentation):
`mean = df[parameter].mean()`, `ucl = mean + 3 * df[parameter].std()`,
`lcl = mean - 3 * df[parameter].std()`, and the strict out-of-control mask. -/
noncomputable def create_control_chart {α : Type} (df : List (α × ℝ)) :
    ControlChart α :=
  let values := df.map Prod.snd
  let mean := pandasMean values
  let ucl := mean.add ((PFloat.val 3).mul (pandasStd values))
  let lcl := mean.sub ((PFloat.val 3).mul (pandasStd values))
  { mean := mean
    ucl := ucl
    lcl := lcl
    outOfControl := findOutOfControlPoints df ucl lcl }

/-- The I-chart limits of `pages/Data_Analytics_Platform_Info.py`:
`i_ucl, i_lcl = i_mean + 3 * i_df['value'].std(), i_mean - 3 * i_df['value'].std()`. -/
noncomputable def i_chart_limits (values : List ℝ) : PFloat × PFloat :=
  let i_mean := pandasMean values
  (i_mean.add ((PFloat.val 3).mul (pandasStd values)),
   i_mean.sub ((PFloat.val 3).mul (pandasStd values)))

/-- The three capability verdicts rendered by the drill-down section. -/
inductive Capability where
  | NOT_CAPABLE : Capability
  | MARGINAL : Capability
  | CAPABLE : Capability

open Classical in
/-- The Ppk classification of `pages/Continued_Process_Verification_CPV.py`:
`if ppk < 1.0` then not capable, `elif ppk < 1.33` then marginally capable,
else capable. -/
noncomputable def classify_ppk (ppk : PFloat) : Capability :=
  if PFloat.lt ppk (PFloat.val 1) then Capability.NOT_CAPABLE
  else if PFloat.lt ppk (PFloat.val 1.33) then Capability.MARGINAL
  else Capability.CAPABLE

/-- On a nonempty series the mean is the finite arithmetic mean. -/
lemma pandasMean_val (xs : List ℝ) (h : xs.length ≠ 0) :
    pandasMean xs = PFloat.val (xs.sum / xs.length) := by
  rw [pandasMean, if_neg h]

/-- On a series of at least two values the standard deviation is finite. -/
lemma pandasStd_val (xs : List ℝ) (h : 2 ≤ xs.length) :
    pandasStd xs = PFloat.val (Real.sqrt (sampleVariance xs)) := by
  rw [pandasStd, if_neg (by omega)]

/-- On a series of fewer than two values the standard deviation is NaN. -/
lemma pandasStd_nan (xs : List ℝ) (h : xs.length < 2) :
    pandasStd xs = PFloat.nan := by
  rw [pandasStd, if_pos h]

/-- The sample variance is a quotient of a sum of squares by a nonnegative
denominator, hence nonnegative. -/
lemma sampleVariance_nonneg (xs : List ℝ) : 0 ≤ sampleVariance xs := by
  rcases Nat.eq_zero_or_pos xs.length with h | h
  · have hx : xs = [] := List.length_eq_zero.mp h
    subst hx
    simp [sampleVariance]
  · apply div_nonneg
    · apply List.sum_nonneg
      intro y hy
      rcases List.mem_map.mp hy with ⟨x, -, rfl⟩
      positivity
    · have h1 : (1 : ℝ) ≤ (xs.length : ℝ) := by exact_mod_cast h
      linarith

lemma val_add (x y : ℝ) :
    (PFloat.val x).add (PFloat.val y) = PFloat.val (x + y) := rfl

lemma val_sub (x y : ℝ) :
    (PFloat.val x).sub (PFloat.val y) = PFloat.val (x - y) := rfl

lemma val_mul (x y : ℝ) :
    (PFloat.val x).mul (PFloat.val y) = PFloat.val (x * y) := rfl

lemma val_div (x y : ℝ) (hy : y ≠ 0) :
    (PFloat.val x).div (PFloat.val y) = PFloat.val (x / y) := by
  simp [PFloat.div, hy]

/-- The Python `min` of two finite values is the usual minimum. -/
lemma pymin_val (a b : ℝ) :
    PFloat.pymin (PFloat.val a) (PFloat.val b) = PFloat.val (min a b) := by
  unfold PFloat.pymin
  split_ifs with h
  · simp only [PFloat.lt] at h
    rw [min_eq_right h.le]
  · simp only [PFloat.lt] at h
    rw [min_eq_left (not_lt.mp h)]

lemma add_nan (a : PFloat) : a.add PFloat.nan = PFloat.nan := by
  cases a <;> rfl

lemma sub_nan (a : PFloat) : a.sub PFloat.nan = PFloat.nan := by
  cases a <;> rfl

lemma mul_nan (a : PFloat) : a.mul PFloat.nan = PFloat.nan := by
  cases a <;> rfl

lemma div_nan (a : PFloat) : a.div PFloat.nan = PFloat.nan := by
  cases a <;> rfl

lemma pymin_nan_nan : PFloat.pymin PFloat.nan PFloat.nan = PFloat.nan := by
  unfold PFloat.pymin
  rw [if_neg (by simp [PFloat.lt])]

lemma not_nan_numEq (b : PFloat) : ¬ PFloat.numEq PFloat.nan b := by
  cases b <;> simp [PFloat.numEq]

/-- On a series of at least two values with positive sample variance,
`calculate_ppk` evaluates to the finite Ppk formula. -/
lemma calculate_ppk_val (data : List ℝ) (usl lsl : ℝ) (h2 : 2 ≤ data.length)
    (hv : 0 < sampleVariance data) :
    calculate_ppk data usl lsl =
      PFloat.val
        (min ((usl - data.sum / data.length) / (3 * Real.sqrt (sampleVariance data)))
          ((data.sum / data.length - lsl) / (3 * Real.sqrt (sampleVariance data)))) := by
  have hσ : 0 < Real.sqrt (sampleVariance data) := Real.sqrt_pos.mpr hv
  have h3 : (3 : ℝ) * Real.sqrt (sampleVariance data) ≠ 0 := by positivity
  have hne : ¬ PFloat.numEq (pandasStd data) (PFloat.val 0) := by
    rw [pandasStd_val data h2]
    simp only [PFloat.numEq]
    exact ne_of_gt hσ
  simp only [calculate_ppk]
  rw [if_neg hne, pandasMean_val data (by omega), pandasStd_val data h2,
    val_sub, val_sub, val_mul, val_div _ _ h3, val_div _ _ h3, pymin_val]

/-- On a series of at least two values with zero sample variance,
`calculate_ppk` returns positive infinity. -/
lemma calculate_ppk_inf (data : List ℝ) (usl lsl : ℝ) (h2 : 2 ≤ data.length)
    (hv : sampleVariance data = 0) :
    calculate_ppk data usl lsl = PFloat.inf := by
  have heq : PFloat.numEq (pandasStd data) (PFloat.val 0) := by
    rw [pandasStd_val data h2, hv, Real.sqrt_zero]
    simp [PFloat.numEq]
  simp only [calculate_ppk]
  rw [if_pos heq]

lemma chart_mean {α : Type} (df : List (α × ℝ)) :
    (create_control_chart df).mean = pandasMean (df.map Prod.snd) := rfl

lemma chart_ucl_eq {α : Type} (df : List (α × ℝ)) :
    (create_control_chart df).ucl =
      (pandasMean (df.map Prod.snd)).add
        ((PFloat.val 3).mul (pandasStd (df.map Prod.snd))) := rfl

lemma chart_lcl_eq {α : Type} (df : List (α × ℝ)) :
    (create_control_chart df).lcl =
      (pandasMean (df.map Prod.snd)).sub
        ((PFloat.val 3).mul (pandasStd (df.map Prod.snd))) := rfl

lemma chart_ooc {α : Type} (df : List (α × ℝ)) :
    (create_control_chart df).outOfControl =
      findOutOfControlPoints df (create_control_chart df).ucl
        (create_control_chart df).lcl := rfl

/-- The upper control limit on a series of at least two batches. -/
lemma chart_ucl_val {α : Type} (df : List (α × ℝ)) (h : 2 ≤ df.length) :
    (create_control_chart df).ucl =
      PFloat.val ((df.map Prod.snd).sum / (df.map Prod.snd).length
        + 3 * Real.sqrt (sampleVariance (df.map Prod.snd))) := by
  have hlen : (df.map Prod.snd).length = df.length := List.length_map _ _
  have h0 : (df.map Prod.snd).length ≠ 0 := by omega
  have h2 : 2 ≤ (df.map Prod.snd).length := by omega
  rw [chart_ucl_eq, pandasMean_val _ h0, pandasStd_val _ h2, val_mul, val_add]

/-- The lower control limit on a series of at least two batches. -/
lemma chart_lcl_val {α : Type} (df : List (α × ℝ)) (h : 2 ≤ df.length) :
    (create_control_chart df).lcl =
      PFloat.val ((df.map Prod.snd).sum / (df.map Prod.snd).length
        - 3 * Real.sqrt (sampleVariance (df.map Prod.snd))) := by
  have hlen : (df.map Prod.snd).length = df.length := List.length_map _ _
  have h0 : (df.map Prod.snd).length ≠ 0 := by omega
  have h2 : 2 ≤ (df.map Prod.snd).length := by omega
  rw [chart_lcl_eq, pandasMean_val _ h0, pandasStd_val _ h2, val_mul, val_sub]

/-- The sample variance of the two-element series `[0, 2]` is `2`;
used to instantiate the positive-variance hypotheses on concrete data. -/
lemma sampleVariance_zero_two : sampleVariance [(0 : ℝ), 2] = 2 := by
  unfold sampleVariance
  norm_num

/-- Claim C1: for every series of at least two batches, the control-limit
computation returns the arithmetic mean, the sample standard deviation
(square root of the sum of squared deviations divided by N - 1), an upper
control limit of mean plus three standard deviations and a lower control
limit of mean minus three standard deviations; the I-chart limits of the
analytics page are built from the same expressions. -/
theorem control_limits_formula {α : Type} (df : List (α × ℝ))
    (h : 2 ≤ df.length) :
    ∃ μ σ : ℝ,
      μ = (df.map Prod.snd).sum / (df.map Prod.snd).length ∧
      0 ≤ σ ∧
      σ ^ 2 = ((df.map Prod.snd).map fun x => (x - μ) ^ 2).sum
        / (((df.map Prod.snd).length : ℝ) - 1) ∧
      pandasMean (df.map Prod.snd) = PFloat.val μ ∧
      pandasStd (df.map Prod.snd) = PFloat.val σ ∧
      (create_control_chart df).mean = PFloat.val μ ∧
      (create_control_chart df).ucl = PFloat.val (μ + 3 * σ) ∧
      (create_control_chart df).lcl = PFloat.val (μ - 3 * σ) ∧
      i_chart_limits (df.map Prod.snd) =
        (PFloat.val (μ + 3 * σ), PFloat.val (μ - 3 * σ)) := by
  have hlen : (df.map Prod.snd).length = df.length := List.length_map _ _
  have h0 : (df.map Prod.snd).length ≠ 0 := by omega
  have h2 : 2 ≤ (df.map Prod.snd).length := by omega
  refine ⟨(df.map Prod.snd).sum / (df.map Prod.snd).length,
    Real.sqrt (sampleVariance (df.map Prod.snd)), rfl, Real.sqrt_nonneg _,
    ?_, pandasMean_val _ h0, pandasStd_val _ h2, ?_, chart_ucl_val df h,
    chart_lcl_val df h, ?_⟩
  · rw [Real.sq_sqrt (sampleVariance_nonneg _)]
    rfl
  · rw [chart_mean, pandasMean_val _ h0]
  · simp only [i_chart_limits]
    rw [pandasMean_val _ h0, pandasStd_val _ h2, val_mul, val_add, val_sub]

/-- Witness for C1 on the two-batch series `[(0, 0), (1, 2)]`. -/
theorem control_limits_formula_witness :
    2 ≤ ([((0 : ℕ), (0 : ℝ)), (1, 2)] : List (ℕ × ℝ)).length ∧
    (∃ μ σ : ℝ,
      μ = (([((0 : ℕ), (0 : ℝ)), (1, 2)] : List (ℕ × ℝ)).map Prod.snd).sum
        / (([((0 : ℕ), (0 : ℝ)), (1, 2)] : List (ℕ × ℝ)).map Prod.snd).length ∧
      0 ≤ σ ∧
      σ ^ 2 = ((([((0 : ℕ), (0 : ℝ)), (1, 2)] : List (ℕ × ℝ)).map
          Prod.snd).map fun x => (x - μ) ^ 2).sum
        / (((([((0 : ℕ), (0 : ℝ)), (1, 2)] : List (ℕ × ℝ)).map
          Prod.snd).length : ℝ) - 1) ∧
      pandasMean (([((0 : ℕ), (0 : ℝ)), (1, 2)] : List (ℕ × ℝ)).map Prod.snd)
        = PFloat.val μ ∧
      pandasStd (([((0 : ℕ), (0 : ℝ)), (1, 2)] : List (ℕ × ℝ)).map Prod.snd)
        = PFloat.val σ ∧
      (create_control_chart ([((0 : ℕ), (0 : ℝ)), (1, 2)] : List (ℕ × ℝ))).mean
        = PFloat.val μ ∧
      (create_control_chart ([((0 : ℕ), (0 : ℝ)), (1, 2)] : List (ℕ × ℝ))).ucl
        = PFloat.val (μ + 3 * σ) ∧
      (create_control_chart ([((0 : ℕ), (0 : ℝ)), (1, 2)] : List (ℕ × ℝ))).lcl
        = PFloat.val (μ - 3 * σ) ∧
      i_chart_limits (([((0 : ℕ), (0 : ℝ)), (1, 2)] : List (ℕ × ℝ)).map
          Prod.snd)
        = (PFloat.val (μ + 3 * σ), PFloat.val (μ - 3 * σ))) :=
  ⟨by norm_num, control_limits_formula _ (by norm_num)⟩

/-- Claim C2: for every series of at least two values with positive sample
variance (equivalently positive sample standard deviation) and ordered
specification limits, `calculate_ppk` returns the minimum of the two
one-sided indices computed from the series mean and the sample standard
deviation. -/
theorem capability_index_formula (data : List ℝ) (usl lsl : ℝ)
    (h2 : 2 ≤ data.length) (hv : 0 < sampleVariance data)
    (hspec : lsl ≤ usl) :
    ∃ μ σ : ℝ,
      μ = data.sum / data.length ∧
      0 < σ ∧
      σ ^ 2 = (data.map fun x => (x - μ) ^ 2).sum / ((data.length : ℝ) - 1) ∧
      calculate_ppk data usl lsl =
        PFloat.val (min ((usl - μ) / (3 * σ)) ((μ - lsl) / (3 * σ))) := by
  refine ⟨data.sum / data.length, Real.sqrt (sampleVariance data), rfl,
    Real.sqrt_pos.mpr hv, ?_, calculate_ppk_val data usl lsl h2 hv⟩
  rw [Real.sq_sqrt (sampleVariance_nonneg _)]
  rfl

/-- Witness for C2 on the series `[0, 2]` with limits `lsl = 0`, `usl = 2`. -/
theorem capability_index_formula_witness :
    2 ≤ ([(0 : ℝ), 2] : List ℝ).length ∧
    0 < sampleVariance [(0 : ℝ), 2] ∧
    (0 : ℝ) ≤ 2 ∧
    (∃ μ σ : ℝ,
      μ = ([(0 : ℝ), 2] : List ℝ).sum / ([(0 : ℝ), 2] : List ℝ).length ∧
      0 < σ ∧
      σ ^ 2 = (([(0 : ℝ), 2] : List ℝ).map fun x => (x - μ) ^ 2).sum
        / ((([(0 : ℝ), 2] : List ℝ).length : ℝ) - 1) ∧
      calculate_ppk [(0 : ℝ), 2] 2 0 =
        PFloat.val (min ((2 - μ) / (3 * σ)) ((μ - 0) / (3 * σ)))) :=
  ⟨by norm_num, by rw [sampleVariance_zero_two]; norm_num, by norm_num,
    capability_index_formula [(0 : ℝ), 2] 2 0 (by norm_num)
      (by rw [sampleVariance_zero_two]; norm_num) (by norm_num)⟩

/-- Claim C3: for every series and every pair of finite control limits with
`lcl ≤ ucl`, the out-of-control mask keeps exactly the rows whose value is
strictly above the upper limit or strictly below the lower limit, as an
order-preserving sublist of the input; a value exactly equal to either
limit is never kept. -/
theorem out_of_control_filter {α : Type} (df : List (α × ℝ)) (u l : ℝ)
    (hle : l ≤ u) :
    findOutOfControlPoints df (PFloat.val u) (PFloat.val l)
        = df.filter (fun p => decide (u < p.2 ∨ p.2 < l)) ∧
      List.Sublist (findOutOfControlPoints df (PFloat.val u) (PFloat.val l))
        df ∧
      ∀ p ∈ findOutOfControlPoints df (PFloat.val u) (PFloat.val l),
        (u < p.2 ∨ p.2 < l) ∧ p.2 ≠ u ∧ p.2 ≠ l := by
  have hfil : findOutOfControlPoints df (PFloat.val u) (PFloat.val l)
      = df.filter (fun p => decide (u < p.2 ∨ p.2 < l)) := by
    unfold findOutOfControlPoints
    apply List.filter_congr
    intro p hp
    apply decide_eq_decide.mpr
    simp [PFloat.lt]
  refine ⟨hfil, ?_, ?_⟩
  · rw [hfil]
    exact List.filter_sublist _
  · intro p hp
    rw [hfil] at hp
    have hmem := (List.mem_filter.mp hp).2
    rw [decide_eq_true_eq] at hmem
    refine ⟨hmem, ?_, ?_⟩
    · intro hpu
      rw [hpu] at hmem
      rcases hmem with h1 | h1
      · exact lt_irrefl _ h1
      · exact absurd hle (not_le.mpr h1)
    · intro hpl
      rw [hpl] at hmem
      rcases hmem with h1 | h1
      · exact absurd hle (not_le.mpr h1)
      · exact lt_irrefl _ h1

/-- Witness for C3 on the series `[(0, 0), (1, 2)]` with limits
`ucl = 1`, `lcl = 0`. -/
theorem out_of_control_filter_witness :
    (0 : ℝ) ≤ 1 ∧
    (findOutOfControlPoints ([((0 : ℕ), (0 : ℝ)), (1, 2)] : List (ℕ × ℝ))
          (PFloat.val 1) (PFloat.val 0)
        = ([((0 : ℕ), (0 : ℝ)), (1, 2)] : List (ℕ × ℝ)).filter
            (fun p => decide ((1 : ℝ) < p.2 ∨ p.2 < 0)) ∧
      List.Sublist (findOutOfControlPoints
          ([((0 : ℕ), (0 : ℝ)), (1, 2)] : List (ℕ × ℝ))
          (PFloat.val 1) (PFloat.val 0))
        ([((0 : ℕ), (0 : ℝ)), (1, 2)] : List (ℕ × ℝ)) ∧
      ∀ p ∈ findOutOfControlPoints
          ([((0 : ℕ), (0 : ℝ)), (1, 2)] : List (ℕ × ℝ))
          (PFloat.val 1) (PFloat.val 0),
        ((1 : ℝ) < p.2 ∨ p.2 < 0) ∧ p.2 ≠ 1 ∧ p.2 ≠ 0) :=
  ⟨by norm_num, out_of_control_filter _ 1 0 (by norm_num)⟩

/-- Claim C7: the classification of a finite capability index is
NOT_CAPABLE exactly below 1, MARGINAL exactly on `[1, 1.33)` and CAPABLE
exactly from 1.33 on; an infinite index is classified CAPABLE. -/
theorem classification_thresholds :
    (∀ r : ℝ,
      (classify_ppk (PFloat.val r) = Capability.NOT_CAPABLE ↔ r < 1) ∧
      (classify_ppk (PFloat.val r) = Capability.MARGINAL ↔
        1 ≤ r ∧ r < 1.33) ∧
      (classify_ppk (PFloat.val r) = Capability.CAPABLE ↔ 1.33 ≤ r)) ∧
    classify_ppk PFloat.inf = Capability.CAPABLE := by
  have h133 : (1 : ℝ) ≤ 1.33 := by norm_num
  constructor
  · intro r
    unfold classify_ppk
    simp only [PFloat.lt]
    split_ifs with h1 h2
    · exact ⟨iff_of_true rfl h1,
        iff_of_false (by simp) (fun hc => absurd h1 (not_lt.mpr hc.1)),
        iff_of_false (by simp)
          (fun hc => absurd h1 (not_lt.mpr (le_trans h133 hc)))⟩
    · exact ⟨iff_of_false (by simp) h1,
        iff_of_true rfl ⟨not_lt.mp h1, h2⟩,
        iff_of_false (by simp) (fun hc => absurd h2 (not_lt.mpr hc))⟩
    · exact ⟨iff_of_false (by simp) h1,
        iff_of_false (by simp) (fun hc => absurd hc.2 h2),
        iff_of_true rfl (not_lt.mp h2)⟩
  · unfold classify_ppk
    rw [if_neg (by simp [PFloat.lt]), if_neg (by simp [PFloat.lt])]

/-- Counterexample to claim C4: on a one-element series (and on the empty
series) `calculate_ppk` silently returns NaN, and the control limits are
NaN — no `InsufficientDataError` exists anywhere in the code. -/
theorem insufficient_data_counterexample :
    calculate_ppk [(5 : ℝ)] 10 0 = PFloat.nan ∧
    calculate_ppk ([] : List ℝ) 10 0 = PFloat.nan ∧
    (create_control_chart [((0 : ℕ), (5 : ℝ))]).ucl = PFloat.nan := by
  have h1 : pandasStd [(5 : ℝ)] = PFloat.nan := pandasStd_nan _ (by norm_num)
  have h0 : pandasStd ([] : List ℝ) = PFloat.nan :=
    pandasStd_nan _ (by norm_num)
  refine ⟨?_, ?_, ?_⟩
  · have hcond : ¬ PFloat.numEq (pandasStd [(5 : ℝ)]) (PFloat.val 0) := by
      rw [h1]
      exact not_nan_numEq _
    simp only [calculate_ppk]
    rw [if_neg hcond, h1, mul_nan, div_nan, div_nan, pymin_nan_nan]
  · have hcond : ¬ PFloat.numEq (pandasStd ([] : List ℝ)) (PFloat.val 0) := by
      rw [h0]
      exact not_nan_numEq _
    simp only [calculate_ppk]
    rw [if_neg hcond, h0, mul_nan, div_nan, div_nan, pymin_nan_nan]
  · have hmap : ([((0 : ℕ), (5 : ℝ))] : List (ℕ × ℝ)).map Prod.snd
        = [(5 : ℝ)] := rfl
    rw [chart_ucl_eq, hmap, h1, mul_nan, add_nan]

/-- Claim C4 as amended: a series of length 0 or 1 makes the pandas
standard deviation NaN, which propagates silently — `calculate_ppk`
returns NaN, both control limits are NaN, and the out-of-control mask is
empty; nothing fails and no error is raised. -/
theorem insufficient_data_nan_propagation {α : Type} (data : List ℝ)
    (usl lsl : ℝ) (df : List (α × ℝ)) (hd : data.length ≤ 1)
    (hdf : df.length ≤ 1) :
    pandasStd data = PFloat.nan ∧
    calculate_ppk data usl lsl = PFloat.nan ∧
    (create_control_chart df).ucl = PFloat.nan ∧
    (create_control_chart df).lcl = PFloat.nan ∧
    (create_control_chart df).outOfControl = [] := by
  have hstd : pandasStd data = PFloat.nan := pandasStd_nan _ (by omega)
  have hlenf : (df.map Prod.snd).length = df.length := List.length_map _ _
  have hstdf : pandasStd (df.map Prod.snd) = PFloat.nan :=
    pandasStd_nan _ (by omega)
  have hppk : calculate_ppk data usl lsl = PFloat.nan := by
    have hcond : ¬ PFloat.numEq (pandasStd data) (PFloat.val 0) := by
      rw [hstd]
      exact not_nan_numEq _
    simp only [calculate_ppk]
    rw [if_neg hcond, hstd, mul_nan, div_nan, div_nan, pymin_nan_nan]
  have hucl : (create_control_chart df).ucl = PFloat.nan := by
    rw [chart_ucl_eq, hstdf, mul_nan, add_nan]
  have hlcl : (create_control_chart df).lcl = PFloat.nan := by
    rw [chart_lcl_eq, hstdf, mul_nan, sub_nan]
  refine ⟨hstd, hppk, hucl, hlcl, ?_⟩
  rw [chart_ooc, hucl, hlcl]
  unfold findOutOfControlPoints
  apply List.filter_eq_nil_iff.mpr
  intro p hp
  simp [PFloat.lt]

/-- Witness for the amended C4 on the one-element series `[5]` and the
one-batch frame `[(0, 5)]`. -/
theorem insufficient_data_nan_propagation_witness :
    ([(5 : ℝ)] : List ℝ).length ≤ 1 ∧
    ([((0 : ℕ), (5 : ℝ))] : List (ℕ × ℝ)).length ≤ 1 ∧
    (pandasStd [(5 : ℝ)] = PFloat.nan ∧
      calculate_ppk [(5 : ℝ)] 10 0 = PFloat.nan ∧
      (create_control_chart [((0 : ℕ), (5 : ℝ))]).ucl = PFloat.nan ∧
      (create_control_chart [((0 : ℕ), (5 : ℝ))]).lcl = PFloat.nan ∧
      (create_control_chart [((0 : ℕ), (5 : ℝ))]).outOfControl = []) :=
  ⟨by norm_num, by norm_num,
    insufficient_data_nan_propagation [(5 : ℝ)] 10 0 _ (by norm_num)
      (by norm_num)⟩

/-- Counterexample to claim C5: with inverted specification limits
(`usl = 0 < 1 = lsl`) `calculate_ppk` still returns a numeric result — on
the zero-variance series `[5, 5]` it returns positive infinity; no
`InvalidSpecificationError` exists anywhere in the code. -/
theorem inverted_spec_counterexample :
    calculate_ppk [(5 : ℝ), 5] 0 1 = PFloat.inf := by
  apply calculate_ppk_inf _ _ _ (by norm_num)
  unfold sampleVariance
  norm_num

/-- Claim C5 as amended: `calculate_ppk` performs no validation of the
specification limits; on any series of at least two values with inverted
limits it still returns a numeric value (positive infinity on zero sample
variance, otherwise the finite Ppk formula value), never an error and
never NaN. -/
theorem inverted_spec_no_validation (data : List ℝ) (usl lsl : ℝ)
    (h2 : 2 ≤ data.length) (hinv : usl < lsl) :
    calculate_ppk data usl lsl ≠ PFloat.nan ∧
      (calculate_ppk data usl lsl = PFloat.inf ∨
        ∃ r : ℝ, calculate_ppk data usl lsl = PFloat.val r) := by
  rcases eq_or_lt_of_le (sampleVariance_nonneg data) with hv | hv
  · rw [calculate_ppk_inf data usl lsl h2 hv.symm]
    exact ⟨by simp, Or.inl rfl⟩
  · rw [calculate_ppk_val data usl lsl h2 hv]
    exact ⟨by simp, Or.inr ⟨_, rfl⟩⟩

/-- Witness for the amended C5 on the series `[0, 2]` with inverted limits
`usl = 0`, `lsl = 1`. -/
theorem inverted_spec_no_validation_witness :
    2 ≤ ([(0 : ℝ), 2] : List ℝ).length ∧
    (0 : ℝ) < 1 ∧
    (calculate_ppk [(0 : ℝ), 2] 0 1 ≠ PFloat.nan ∧
      (calculate_ppk [(0 : ℝ), 2] 0 1 = PFloat.inf ∨
        ∃ r : ℝ, calculate_ppk [(0 : ℝ), 2] 0 1 = PFloat.val r)) :=
  ⟨by norm_num, by norm_num,
    inverted_spec_no_validation [(0 : ℝ), 2] 0 1 (by norm_num) (by norm_num)⟩

/-- Claim C6: every series of N identical values (N at least 2) has sample
standard deviation zero, `calculate_ppk` returns positive infinity, and
the classification of that index is CAPABLE. -/
theorem degenerate_variance_sentinel (n : ℕ) (c usl lsl : ℝ) (hn : 2 ≤ n) :
    pandasStd (List.replicate n c) = PFloat.val 0 ∧
    calculate_ppk (List.replicate n c) usl lsl = PFloat.inf ∧
    classify_ppk (calculate_ppk (List.replicate n c) usl lsl) =
      Capability.CAPABLE := by
  have hlen : (List.replicate n c).length = n := List.length_replicate n c
  have hn0 : (n : ℝ) ≠ 0 := Nat.cast_ne_zero.mpr (by omega)
  have hvar : sampleVariance (List.replicate n c) = 0 := by
    unfold sampleVariance
    have hc : ((n : ℝ) * c) / n = c := mul_div_cancel_left₀ c hn0
    rw [hlen, List.sum_replicate, nsmul_eq_mul, hc, List.map_replicate]
    simp
  have hstd : pandasStd (List.replicate n c) = PFloat.val 0 := by
    rw [pandasStd_val _ (by omega), hvar, Real.sqrt_zero]
  have hppk := calculate_ppk_inf (List.replicate n c) usl lsl (by omega) hvar
  refine ⟨hstd, hppk, ?_⟩
  rw [hppk]
  unfold classify_ppk
  rw [if_neg (by simp [PFloat.lt]), if_neg (by simp [PFloat.lt])]

/-- Witness for C6 with five copies of `7` and limits `usl = 1`, `lsl = 0`. -/
theorem degenerate_variance_sentinel_witness :
    2 ≤ 5 ∧
    (pandasStd (List.replicate 5 (7 : ℝ)) = PFloat.val 0 ∧
      calculate_ppk (List.replicate 5 (7 : ℝ)) 1 0 = PFloat.inf ∧
      classify_ppk (calculate_ppk (List.replicate 5 (7 : ℝ)) 1 0) =
        Capability.CAPABLE) :=
  ⟨by norm_num, degenerate_variance_sentinel 5 7 1 0 (by norm_num)⟩

/-- Claim C8: for a fixed series with positive sample variance, widening
the specification window (smaller or equal lower limit, larger or equal
upper limit) never decreases the capability index. -/
theorem capability_monotone (data : List ℝ) (lsl usl lsl2 usl2 : ℝ)
    (h2 : 2 ≤ data.length) (hv : 0 < sampleVariance data)
    (hl : lsl2 ≤ lsl) (hu : usl ≤ usl2) :
    ∃ r r2 : ℝ, calculate_ppk data usl lsl = PFloat.val r ∧
      calculate_ppk data usl2 lsl2 = PFloat.val r2 ∧ r ≤ r2 := by
  have hσ : 0 < Real.sqrt (sampleVariance data) := Real.sqrt_pos.mpr hv
  have h3 : (0 : ℝ) < 3 * Real.sqrt (sampleVariance data) := by positivity
  refine ⟨_, _, calculate_ppk_val data usl lsl h2 hv,
    calculate_ppk_val data usl2 lsl2 h2 hv, ?_⟩
  apply min_le_min
  · exact (div_le_div_iff_of_pos_right h3).mpr (by linarith)
  · exact (div_le_div_iff_of_pos_right h3).mpr (by linarith)

/-- Witness for C8 on the series `[0, 2]`, narrowing `(0, 2)` against the
wider window `(-1, 3)`. -/
theorem capability_monotone_witness :
    2 ≤ ([(0 : ℝ), 2] : List ℝ).length ∧
    0 < sampleVariance [(0 : ℝ), 2] ∧
    (-1 : ℝ) ≤ 0 ∧
    (2 : ℝ) ≤ 3 ∧
    (∃ r r2 : ℝ, calculate_ppk [(0 : ℝ), 2] 2 0 = PFloat.val r ∧
      calculate_ppk [(0 : ℝ), 2] 3 (-1) = PFloat.val r2 ∧ r ≤ r2) :=
  ⟨by norm_num, by rw [sampleVariance_zero_two]; norm_num, by norm_num,
    by norm_num,
    capability_monotone [(0 : ℝ), 2] 0 2 (-1) 3 (by norm_num)
      (by rw [sampleVariance_zero_two]; norm_num) (by norm_num) (by norm_num)⟩

/-- The concrete CPV scenario of the spec: nine batches at 10 and one at
30, indexed chronologically. -/
noncomputable def cpvScenario : List (ℕ × ℝ) :=
  [(0, 10), (1, 10), (2, 10), (3, 10), (4, 10), (5, 10), (6, 10), (7, 10),
   (8, 10), (9, 30)]

/-- The values of the concrete scenario. -/
lemma cpvScenario_values :
    cpvScenario.map Prod.snd
      = [10, 10, 10, 10, 10, 10, 10, 10, 10, (30 : ℝ)] := rfl

/-- The sample variance of the concrete scenario is exactly 40. -/
lemma cpvScenario_variance :
    sampleVariance [10, 10, 10, 10, 10, 10, 10, 10, 10, (30 : ℝ)] = 40 := by
  unfold sampleVariance
  norm_num

/-- Claim C9: on the series of nine 10s and one 30, the mean is 12, the
sample standard deviation is between 6.32 and 6.33 (approximately 6.32),
the upper control limit lies between 30.9 and 31 (approximately 31) and in
particular above 30, the lower control limit lies between -7 and -6.9
(approximately -7), and the out-of-control mask is empty: the value 30 is
inside the limits. -/
theorem masked_outlier_scenario :
    pandasMean (cpvScenario.map Prod.snd) = PFloat.val 12 ∧
    (∃ σ : ℝ, pandasStd (cpvScenario.map Prod.snd) = PFloat.val σ ∧
      6.32 < σ ∧ σ < 6.33) ∧
    (∃ u : ℝ, (create_control_chart cpvScenario).ucl = PFloat.val u ∧
      30.9 < u ∧ u < 31 ∧ 30 < u) ∧
    (∃ l : ℝ, (create_control_chart cpvScenario).lcl = PFloat.val l ∧
      (-7 : ℝ) < l ∧ l < -6.9) ∧
    (create_control_chart cpvScenario).outOfControl = [] := by
  have hσl : (6.32 : ℝ) < Real.sqrt 40 :=
    (Real.lt_sqrt (by norm_num)).mpr (by norm_num)
  have hσu : Real.sqrt 40 < 6.33 :=
    (Real.sqrt_lt' (by norm_num)).mpr (by norm_num)
  have hmean : pandasMean (cpvScenario.map Prod.snd) = PFloat.val 12 := by
    rw [cpvScenario_values, pandasMean_val _ (by norm_num)]
    norm_num
  have hstd : pandasStd (cpvScenario.map Prod.snd)
      = PFloat.val (Real.sqrt 40) := by
    rw [cpvScenario_values, pandasStd_val _ (by norm_num),
      cpvScenario_variance]
  have hu : (create_control_chart cpvScenario).ucl
      = PFloat.val (12 + 3 * Real.sqrt 40) := by
    rw [chart_ucl_val cpvScenario (by norm_num [cpvScenario]),
      cpvScenario_values, cpvScenario_variance]
    norm_num
  have hl : (create_control_chart cpvScenario).lcl
      = PFloat.val (12 - 3 * Real.sqrt 40) := by
    rw [chart_lcl_val cpvScenario (by norm_num [cpvScenario]),
      cpvScenario_values, cpvScenario_variance]
    norm_num
  refine ⟨hmean, ⟨Real.sqrt 40, hstd, hσl, hσu⟩,
    ⟨12 + 3 * Real.sqrt 40, hu, by linarith, by linarith, by linarith⟩,
    ⟨12 - 3 * Real.sqrt 40, hl, by linarith, by linarith⟩, ?_⟩
  rw [chart_ooc, hu, hl]
  unfold findOutOfControlPoints
  apply List.filter_eq_nil_iff.mpr
  intro p hp
  simp only [cpvScenario, List.mem_cons, List.not_mem_nil, or_false] at hp
  rcases hp with rfl | rfl | rfl | rfl | rfl | rfl | rfl | rfl | rfl | rfl <;>
    · simp only [decide_eq_true_eq, PFloat.lt, not_or, not_lt]
      constructor <;> linarith

/-- Claim C10: with the specification limits set to the series' own
control limits, the capability index is exactly 1 — both computations use
the same mean and the same sample standard deviation of the full series. -/
theorem capability_at_own_limits {α : Type} (df : List (α × ℝ))
    (h2 : 2 ≤ df.length) (hv : 0 < sampleVariance (df.map Prod.snd)) :
    ∃ u l : ℝ, (create_control_chart df).ucl = PFloat.val u ∧
      (create_control_chart df).lcl = PFloat.val l ∧
      calculate_ppk (df.map Prod.snd) u l = PFloat.val 1 := by
  have hlen : (df.map Prod.snd).length = df.length := List.length_map _ _
  have h2x : 2 ≤ (df.map Prod.snd).length := by omega
  have h3 : (3 : ℝ) * Real.sqrt (sampleVariance (df.map Prod.snd)) ≠ 0 := by
    have := Real.sqrt_pos.mpr hv
    positivity
  refine ⟨_, _, chart_ucl_val df h2, chart_lcl_val df h2, ?_⟩
  rw [calculate_ppk_val _ _ _ h2x hv]
  have e1 : ((df.map Prod.snd).sum / (df.map Prod.snd).length
        + 3 * Real.sqrt (sampleVariance (df.map Prod.snd)))
      - (df.map Prod.snd).sum / (df.map Prod.snd).length
      = 3 * Real.sqrt (sampleVariance (df.map Prod.snd)) := by ring
  have e2 : (df.map Prod.snd).sum / (df.map Prod.snd).length
      - ((df.map Prod.snd).sum / (df.map Prod.snd).length
        - 3 * Real.sqrt (sampleVariance (df.map Prod.snd)))
      = 3 * Real.sqrt (sampleVariance (df.map Prod.snd)) := by ring
  rw [e1, e2, div_self h3, min_self]

/-- Witness for C10 on the two-batch series `[(0, 0), (1, 2)]`. -/
theorem capability_at_own_limits_witness :
    2 ≤ ([((0 : ℕ), (0 : ℝ)), (1, 2)] : List (ℕ × ℝ)).length ∧
    0 < sampleVariance (([((0 : ℕ), (0 : ℝ)), (1, 2)] :
      List (ℕ × ℝ)).map Prod.snd) ∧
    (∃ u l : ℝ,
      (create_control_chart ([((0 : ℕ), (0 : ℝ)), (1, 2)] :
        List (ℕ × ℝ))).ucl = PFloat.val u ∧
      (create_control_chart ([((0 : ℕ), (0 : ℝ)), (1, 2)] :
        List (ℕ × ℝ))).lcl = PFloat.val l ∧
      calculate_ppk (([((0 : ℕ), (0 : ℝ)), (1, 2)] :
        List (ℕ × ℝ)).map Prod.snd) u l = PFloat.val 1) :=
  ⟨by norm_num,
    by
      show 0 < sampleVariance [(0 : ℝ), 2]
      rw [sampleVariance_zero_two]
      norm_num,
    capability_at_own_limits _ (by norm_num)
      (by
        show 0 < sampleVariance [(0 : ℝ), 2]
        rw [sampleVariance_zero_two]
        norm_num)⟩

end Halozyme
